import Mathlib

/-
Verification of the restaurant-discovery agent's orchestration core:
the tool-based cache-TTL policy, the cache-check / agent-loop / cache-write
workflow, the unified hybrid restaurant search tool with its fallback
ladder, and the reservation create/cancel operations.

The JavaScript source is embedded shallowly: asynchronous I/O boundaries
(the LangCache gateway, the Redis search index, the chat model) are
modelled as explicit outcome parameters or oracle functions, JS numbers
that carry fractional values are modelled as rationals, and JS string /
number truthiness is made explicit where the source branches on it.
-/

namespace RestaurantAgent

/-! ## TTL policy — src/services/ai/helpers/caching.js -/

/-- Tools whose turns must never be cached (personal / dynamic operations). -/
def personalTools : List String :=
  ["make_reservation", "get_user_reservations", "cancel_reservation"]

/-- Tools producing near-static content (7-day TTL class). -/
def staticTools : List String :=
  ["get_popular_restaurants", "direct_answer"]

/-- Tools producing restaurant-search content (24-hour TTL class). -/
def searchTools : List String :=
  ["semantic_search_restaurants"]

/-- Tools producing per-restaurant detail content (6-hour TTL class). -/
def detailTools : List String :=
  ["get_restaurant_details"]

/-- `determineToolBasedCacheTTL(toolsUsed)`: first-match-wins ladder over the
tool names invoked during the turn; result in milliseconds, 0 = never cache. -/
def determineToolBasedCacheTTL (toolsUsed : List String) : Nat :=
  if personalTools.any (fun tool => toolsUsed.contains tool) then
    0
  else if staticTools.any (fun tool => toolsUsed.contains tool) then
    7 * 24 * 60 * 60 * 1000
  else if searchTools.any (fun tool => toolsUsed.contains tool) then
    24 * 60 * 60 * 1000
  else if detailTools.any (fun tool => toolsUsed.contains tool) then
    6 * 60 * 60 * 1000
  else
    12 * 60 * 60 * 1000

/-! ## Semantic-cache gateway request shapes —
src/services/chat/data/chat-repository.js -/

/-- Scoping attributes attached to a LangCache request. -/
structure CacheAttributes where
  sessionId : String
deriving DecidableEq, Repr

/-- The request `findFromSemanticCache` sends to `langCache.search`
(search strategies `[exact, semantic]` are fixed and omitted). -/
structure CacheSearchParams where
  prompt : String
  attributes : Option CacheAttributes
deriving DecidableEq, Repr

/-- The request `saveResponseInSemanticCache` sends to `langCache.set`. -/
structure CacheSetParams where
  prompt : String
  response : String
  ttlMillis : Nat
  attributes : Option CacheAttributes
deriving DecidableEq, Repr

/-- JS truthiness of an optional string argument (`if (sessionId)`):
present and non-empty. -/
def strTruthy : Option String → Bool
  | none => false
  | some s => s ≠ ""

/-- Request built by `ChatRepository.findFromSemanticCache(query, sessionId)`:
attributes are attached only when a truthy `sessionId` is supplied. -/
def findFromSemanticCacheParams (query : String) (sessionId : Option String) :
    CacheSearchParams :=
  if strTruthy sessionId then
    { prompt := query, attributes := some ⟨sessionId.getD ""⟩ }
  else
    { prompt := query, attributes := none }

/-- Request built by
`ChatRepository.saveResponseInSemanticCache(query, reply, ttlMillis, sessionId)`. -/
def saveResponseInSemanticCacheParams (query aiReplyMessage : String)
    (ttlMillis : Nat) (sessionId : Option String) : CacheSetParams :=
  if strTruthy sessionId then
    { prompt := query, response := aiReplyMessage, ttlMillis := ttlMillis,
      attributes := some ⟨sessionId.getD ""⟩ }
  else
    { prompt := query, response := aiReplyMessage, ttlMillis := ttlMillis,
      attributes := none }

/-! ## Workflow state — src/services/ai/agentic-restaurant-workflow/state.js -/

/-- A transcript message; `role` is the LangChain message type
("human", "ai", "system", "tool"). -/
structure Message where
  role : String
  content : String
deriving DecidableEq, Repr

/-- The LangGraph `RestaurantAgentState` channels used by the three nodes.
`foundRestaurants` is UI metadata and not modelled. -/
structure AgentState where
  sessionId : String
  messages : List Message
  result : Option String
  cacheStatus : Option String
  toolsUsed : Option (List String)
deriving DecidableEq, Repr

/-- `state.messages.findLast(m => m.getType() === "human")?.content || ""`. -/
def lastHumanContent (messages : List Message) : String :=
  match messages.reverse.find? (fun m => m.role == "human") with
  | some m => m.content
  | none => ""

/-! ## Node 1: queryCacheCheck —
src/services/ai/agentic-restaurant-workflow/nodes.js -/

/-- `queryCacheCheck(state)`, given the outcome of the awaited
`checkSemanticCache(userQuery)` call: `Except.error` models the gateway
throwing, `Except.ok none` a miss, `Except.ok (some r)` a returned response
(the source then re-tests truthiness of the response string).
Returns the updated state together with the lookup request that was issued
(always unscoped: `checkSemanticCache` is called with the query only). -/
def queryCacheCheck (state : AgentState) (lookup : Except Unit (Option String)) :
    AgentState × CacheSearchParams :=
  let userQuery := lastHumanContent state.messages
  let request := findFromSemanticCacheParams userQuery none
  match lookup with
  | Except.ok (some cachedResult) =>
      if cachedResult ≠ "" then
        ({ state with
            cacheStatus := some "hit",
            result := some cachedResult,
            messages := state.messages ++ [⟨"ai", cachedResult⟩] }, request)
      else
        ({ state with cacheStatus := some "miss" }, request)
  | Except.ok none =>
      ({ state with cacheStatus := some "miss" }, request)
  | Except.error _ =>
      ({ state with cacheStatus := some "miss" }, request)

/-! ## Node 2: restaurantDiscoveryAgent — the unbounded tool loop -/

/-- One chat-model response: final text plus the list of tool calls
(tool names; arguments are not needed by any claim). -/
structure ModelResponse where
  content : String
  toolCalls : List String
deriving DecidableEq, Repr

/-- Result of the `while (true)` loop in `restaurantDiscoveryAgent`. -/
inductive AgentOutcome where
  /-- The model returned a response with no tool calls: the loop exits with
  that response's text, the accumulated tool names, and the number of model
  invocations performed. -/
  | finished (content : String) (toolsUsed : List String) (modelCalls : Nat)
  /-- A model invocation threw; the surrounding catch handles it. -/
  | errored (toolsUsed : List String) (modelCalls : Nat)
  /-- The supplied model script was exhausted without a final answer: the
  source loop would still be running (it has no iteration cap). -/
  | diverged
deriving DecidableEq, Repr

/-- The agent loop, driven by a script of model-invocation outcomes (one entry
per `modelWithTools.invoke` call; `Except.error` models a throw).  `acc` is the
`toolsUsed` accumulator.  An exhausted script models non-termination: the
source loop only exits on a response with no tool calls (or an exception). -/
def agentLoop : List (Except Unit ModelResponse) → List String → AgentOutcome
  | [], _ => AgentOutcome.diverged
  | Except.error _ :: _, acc => AgentOutcome.errored acc 1
  | Except.ok r :: rest, acc =>
      if r.toolCalls.isEmpty then
        AgentOutcome.finished r.content acc 1
      else
        match agentLoop rest (acc ++ r.toolCalls) with
        | AgentOutcome.finished c ts n => AgentOutcome.finished c ts (n + 1)
        | AgentOutcome.errored ts n => AgentOutcome.errored ts (n + 1)
        | AgentOutcome.diverged => AgentOutcome.diverged

/-- The static apology returned by the agent's catch branch (rendered without
contractions; its exact wording is not load-bearing for any claim). -/
def apologyMessage : String :=
  "I apologize, but I am having trouble with your restaurant request right now."

/-- `restaurantDiscoveryAgent(state)` given the model script.  Returns `none`
when the loop never exits (script exhausted), otherwise the updated state, the
number of model invocations, and the raw tool-invocation trace. -/
def restaurantDiscoveryAgent (state : AgentState)
    (script : List (Except Unit ModelResponse)) :
    Option (AgentState × Nat × List String) :=
  match agentLoop script [] with
  | AgentOutcome.finished content tools n =>
      some ({ state with
                result := some content,
                messages := state.messages ++ [⟨"ai", content⟩],
                toolsUsed := some (if tools.isEmpty then ["none"] else tools) },
            n, tools)
  | AgentOutcome.errored tools n =>
      some ({ state with
                result := some apologyMessage,
                messages := state.messages ++ [⟨"ai", apologyMessage⟩],
                toolsUsed := some ["error"] },
            n, tools)
  | AgentOutcome.diverged => none

/-! ## Node 3: processWorkOutputWithCaching -/

/-- `processWorkOutputWithCaching(state)`.  `saveFails` models the awaited
`saveToSemanticCache` call throwing (the catch sets `cacheStatus = "error"`).
Returns the updated state together with the list of cache-store requests
issued (empty when the store was never called). -/
def processWorkOutputWithCaching (state : AgentState) (saveFails : Bool) :
    AgentState × List CacheSetParams :=
  let userQuery := lastHumanContent state.messages
  let agentResponse := state.result
  if (state.toolsUsed.getD []).contains "error" then
    ({ state with cacheStatus := some "skip" }, [])
  else
    let cacheTTL := determineToolBasedCacheTTL (state.toolsUsed.getD [])
    if cacheTTL = 0 then
      ({ state with cacheStatus := some "skip" }, [])
    else
      let request := saveResponseInSemanticCacheParams userQuery
        (agentResponse.getD "") cacheTTL (some state.sessionId)
      if saveFails then
        ({ state with cacheStatus := some "error" }, [request])
      else
        ({ state with cacheStatus := some "saved" }, [request])

/-! ## The compiled workflow graph —
src/services/ai/agentic-restaurant-workflow/index.js -/

/-- Observable record of one workflow run: final state plus the I/O trace
(the cache lookup request, model-invocation count, tool invocations, and
cache-store requests). -/
structure TurnTrace where
  finalState : AgentState
  lookupRequest : CacheSearchParams
  modelCalls : Nat
  toolInvocations : List String
  storeRequests : List CacheSetParams
deriving DecidableEq, Repr

/-- `createAgenticAIRestaurantWorkflow`: START → query_cache_check →
(on "hit": END, else restaurant_discovery_agent) →
process_work_output_with_caching → END.  `none` when the agent loop never
exits. -/
def runWorkflow (sessionId : String) (messages : List Message)
    (lookup : Except Unit (Option String))
    (script : List (Except Unit ModelResponse))
    (saveFails : Bool) : Option TurnTrace :=
  let st0 : AgentState :=
    { sessionId := sessionId, messages := messages, result := none,
      cacheStatus := none, toolsUsed := none }
  let checked := queryCacheCheck st0 lookup
  if checked.1.cacheStatus = some "hit" then
    some { finalState := checked.1, lookupRequest := checked.2,
           modelCalls := 0, toolInvocations := [], storeRequests := [] }
  else
    match restaurantDiscoveryAgent checked.1 script with
    | none => none
    | some (st2, calls, tools) =>
        let processed := processWorkOutputWithCaching st2 saveFails
        some { finalState := processed.1, lookupRequest := checked.2,
               modelCalls := calls, toolInvocations := tools,
               storeRequests := processed.2 }

/-! ## Restaurant documents and the Redis search capability -/

/-- A restaurant document as surfaced by the search queries.  `reviewCount`
is not among the RETURN fields of any query (so it is 0 on all results) but
is kept so the popularity tie-break in the source is representable. -/
structure Restaurant where
  id : String
  name : String
  cuisine : String
  city : String
  locality : String
  address : String
  type : String
  priceFor2 : Nat
  rating : ℚ
  reviewCount : Nat
deriving DecidableEq, Repr

/-- JS number truthiness of an optional numeric value (`if (latitude)`):
present and non-zero. -/
def numTruthy : Option ℚ → Bool
  | none => false
  | some x => x ≠ 0

/-- Normalise an optional string for a `if (field) filters.push(...)` guard. -/
def optStr : Option String → Option String
  | none => none
  | some s => if s = "" then none else some s

/-- Normalise an optional natural for a truthiness guard (0 is falsy). -/
def optNat : Option Nat → Option Nat
  | none => none
  | some 0 => none
  | some (n + 1) => some (n + 1)

/-- Normalise an optional rational for a truthiness guard (0 is falsy). -/
def optNum : Option ℚ → Option ℚ
  | none => none
  | some x => if x = 0 then none else some x

/-- `s.includes(t)` on JS strings (substring containment). -/
def strIncludes (s t : String) : Bool := decide (t.toList <:+: s.toList)

/-- Geo clause of a search request (`@lngLat:[lng lat radius unit]` or a
GEOFILTER). -/
structure GeoReq where
  longitude : ℚ
  latitude : ℚ
  radius : ℚ
  unit : String
deriving DecidableEq, Repr

/-- The structured content of one `client.ft.search` call as built by the
repository: text query, optional KNN clause with its vector, optional geo
clause, the tag/numeric filters that were pushed, sort field, and the LIMIT
size. -/
structure FtRequest where
  textQuery : String
  knn : Option Nat
  vector : Option (List ℚ)
  geo : Option GeoReq
  cuisine : Option String
  city : Option String
  locality : Option String
  type : Option String
  maxPrice : Option Nat
  minRating : Option ℚ
  sortBy : Option String
  limit : Nat
deriving DecidableEq, Repr

/-- The external Redis search capability: a function from requests to
document lists (the repository maps returned documents to plain objects,
which the model identifies with the restaurants themselves). -/
def FtOracle : Type := FtRequest → List Restaurant

/-! ## RestaurantRepository — src (restaurant data access layer) -/

/-- Parameters of `RestaurantRepository.searchRestaurants`. -/
structure SearchParams where
  query : String
  cuisine : Option String
  city : Option String
  locality : Option String
  type : Option String
  maxPrice : Option Nat
  minRating : Option ℚ
  limit : Nat
deriving DecidableEq, Repr

namespace RestaurantRepository

/-- The text-search request built by `searchRestaurants`: each filter is
pushed only when truthy, the empty query becomes `*`, LIMIT size is the
supplied limit. -/
def searchRequest (p : SearchParams) : FtRequest :=
  { textQuery := if p.query = "" then "*" else p.query,
    knn := none, vector := none, geo := none,
    cuisine := optStr p.cuisine, city := optStr p.city,
    locality := optStr p.locality, type := optStr p.type,
    maxPrice := optNat p.maxPrice, minRating := optNum p.minRating,
    sortBy := none, limit := p.limit }

/-- `RestaurantRepository.searchRestaurants`. -/
def searchRestaurants (ft : FtOracle) (p : SearchParams) : List Restaurant :=
  ft (searchRequest p)

/-- Options object of the vector-search entry points (service and
repository destructure the same shape; destructuring defaults are applied
inside the functions). -/
structure VectorOptions where
  limit : Option Nat
  latitude : Option ℚ
  longitude : Option ℚ
  radius : Option ℚ
  cuisine : Option String
  city : Option String
  locality : Option String
  type : Option String
  maxPrice : Option Nat
  minRating : Option ℚ
deriving DecidableEq, Repr

/-- The hybrid KNN request built by `vectorSearchRestaurants`: geo filter
only when both coordinates are truthy, KNN k = LIMIT size = `limit`
(default 10), SORTBY score when coordinates are present else rating. -/
def vectorSearchRequest (queryVector : List ℚ) (o : VectorOptions) : FtRequest :=
  let limit := o.limit.getD 10
  let radius := o.radius.getD 5
  let hasGeo := numTruthy o.latitude && numTruthy o.longitude
  { textQuery := "",
    knn := some limit,
    vector := some queryVector,
    geo := if hasGeo then
             some ⟨o.longitude.getD 0, o.latitude.getD 0, radius, "km"⟩
           else none,
    cuisine := optStr o.cuisine, city := optStr o.city,
    locality := optStr o.locality, type := optStr o.type,
    maxPrice := optNat o.maxPrice, minRating := optNum o.minRating,
    sortBy := some (if hasGeo then "score" else "rating"),
    limit := limit }

/-- `RestaurantRepository.vectorSearchRestaurants`. -/
def vectorSearchRestaurants (ft : FtOracle) (queryVector : List ℚ)
    (o : VectorOptions) : List Restaurant :=
  ft (vectorSearchRequest queryVector o)

/-- The geo request built by `getRestaurantsByLocation` (radius converted to
meters for the GEOFILTER). -/
def geoSearchRequest (latitude longitude radiusKm : ℚ) (limit : Nat) : FtRequest :=
  { textQuery := "*", knn := none, vector := none,
    geo := some ⟨longitude, latitude, radiusKm * 1000, "m"⟩,
    cuisine := none, city := none, locality := none, type := none,
    maxPrice := none, minRating := none, sortBy := none, limit := limit }

/-- `RestaurantRepository.getRestaurantsByLocation`. -/
def getRestaurantsByLocation (ft : FtOracle) (latitude longitude radiusKm : ℚ)
    (limit : Nat) : List Restaurant :=
  ft (geoSearchRequest latitude longitude radiusKm limit)

end RestaurantRepository

/-! ## RestaurantService — src/services/restaurants/domain/restaurant-service.js -/

/-- An `AppError` thrown by the service layer, identified by its code
(the human-readable message is not load-bearing). -/
structure AppError where
  code : String
deriving DecidableEq, Repr

/-- Uniform result shape consumed by the search tool (`result.restaurants`);
the source results carry additional derived metadata (counts, filters,
timestamps) that no caller in scope reads. -/
structure ServiceResult where
  restaurants : List Restaurant
deriving DecidableEq, Repr

/-- Options of `RestaurantService.getPopularRestaurants`. -/
structure PopularOptions where
  city : Option String
  limit : Option Nat
  cuisine : Option String
deriving DecidableEq, Repr

/-- Options of `RestaurantService.findNearbyRestaurants`. -/
structure NearbyOptions where
  latitude : Option ℚ
  longitude : Option ℚ
  radius : Option ℚ
  cuisine : Option String
  city : Option String
  maxPrice : Option Nat
  minRating : Option ℚ
  limit : Option Nat
deriving DecidableEq, Repr

namespace RestaurantService

/-- `_isValidLatitude`. -/
def isValidLatitude (lat : ℚ) : Bool := decide (-90 ≤ lat ∧ lat ≤ 90)

/-- `_isValidLongitude`. -/
def isValidLongitude (lng : ℚ) : Bool := decide (-180 ≤ lng ∧ lng ≤ 180)

/-- The JS sort comparator of `getPopularRestaurants` as a "stays before"
relation: `a` may stay before `b` iff the comparator value `cmp(a, b)` is
non-positive, i.e. rating descending, review count descending on ties. -/
def popularLe (a b : Restaurant) : Bool :=
  decide (b.rating < a.rating) ||
    (decide (b.rating = a.rating) && decide (b.reviewCount ≤ a.reviewCount))

/-- Stable insertion w.r.t. `popularLe`. -/
def insertPopular (a : Restaurant) : List Restaurant → List Restaurant
  | [] => [a]
  | b :: rest =>
      if popularLe a b then a :: b :: rest else b :: insertPopular a rest

/-- The in-place `Array.prototype.sort` of `getPopularRestaurants` (ES2019
sort is stable, and `popularLe` is a total preorder, so any stable sort
yields the same list). -/
def sortPopular : List Restaurant → List Restaurant
  | [] => []
  | a :: rest => insertPopular a (sortPopular rest)

/-- `RestaurantService.getPopularRestaurants`: text search with `query = '*'`,
`minRating = 4.0`, the city/cuisine filters, limit clamped to [1, 50], then
sorted by rating descending with review-count tie-break. -/
def getPopularRestaurants (ft : FtOracle) (o : PopularOptions) : ServiceResult :=
  let limit := o.limit.getD 10
  let validLimit := min (max limit 1) 50
  let restaurants := RestaurantRepository.searchRestaurants ft
    { query := "*", cuisine := o.cuisine, city := o.city, locality := none,
      type := none, maxPrice := none, minRating := some 4, limit := validLimit }
  { restaurants := sortPopular restaurants }

/-- `RestaurantService.vectorSearchRestaurants`: rejects a lone coordinate or
an out-of-range pair, otherwise delegates to the repository (the query-vector
array check cannot fail in the typed model). -/
def vectorSearchRestaurants (ft : FtOracle) (queryVector : List ℚ)
    (o : RestaurantRepository.VectorOptions) : Except AppError ServiceResult :=
  if (numTruthy o.latitude && !numTruthy o.longitude) ||
     (!numTruthy o.latitude && numTruthy o.longitude) then
    Except.error ⟨"INVALID_COORDINATES"⟩
  else if numTruthy o.latitude && numTruthy o.longitude &&
          !(isValidLatitude (o.latitude.getD 0) &&
            isValidLongitude (o.longitude.getD 0)) then
    Except.error ⟨"INVALID_COORDINATES"⟩
  else
    Except.ok
      { restaurants := RestaurantRepository.vectorSearchRestaurants ft queryVector o }

/-- `RestaurantService.getRestaurantsByLocation`: validates the coordinates
(an absent JS argument fails the `typeof === 'number'` check), clamps radius
to [0.1, 50] km and limit to [1, 50]. -/
def getRestaurantsByLocation (ft : FtOracle) (latitude longitude : Option ℚ)
    (radiusKm : ℚ) (limit : Nat) : Except AppError ServiceResult :=
  let latOk := match latitude with
    | some l => isValidLatitude l
    | none => false
  let lngOk := match longitude with
    | some l => isValidLongitude l
    | none => false
  if !(latOk && lngOk) then
    Except.error ⟨"INVALID_COORDINATES"⟩
  else
    let validRadius := min (max radiusKm (1 / 10)) 50
    let validLimit := min (max limit 1) 50
    Except.ok
      { restaurants := RestaurantRepository.getRestaurantsByLocation ft
          (latitude.getD 0) (longitude.getD 0) validRadius validLimit }

/-- `RestaurantService.findNearbyRestaurants`: geo search with `2 × limit`
headroom, then in-memory cuisine (substring, case-insensitive), city
(equality, case-insensitive), max-price, and min-rating filters, then
`slice(0, limit)`. -/
def findNearbyRestaurants (ft : FtOracle) (o : NearbyOptions) :
    Except AppError ServiceResult :=
  let radius := o.radius.getD 5
  let limit := o.limit.getD 10
  match getRestaurantsByLocation ft o.latitude o.longitude radius (limit * 2) with
  | Except.error e => Except.error e
  | Except.ok r =>
      let filtered := r.restaurants.filter (fun rest =>
        (match optStr o.cuisine with
         | some c => strIncludes rest.cuisine.toLower c.toLower
         | none => true) &&
        (match optStr o.city with
         | some c => rest.city.toLower == c.toLower
         | none => true) &&
        (match optNat o.maxPrice with
         | some m => decide (rest.priceFor2 ≤ m)
         | none => true) &&
        (match optNum o.minRating with
         | some m => decide (m ≤ rest.rating)
         | none => true))
      Except.ok { restaurants := filtered.take limit }

end RestaurantService

/-! ## The unified search tool — semanticSearchRestaurantsTool -/

/-- Arguments of `semantic_search_restaurants` after the `parseInt` /
`parseFloat` conversions the tool applies; `none` models an absent or empty
(JS-falsy) string argument. -/
structure ToolArgs where
  query : Option String
  latitude : Option ℚ
  longitude : Option ℚ
  radius : Option ℚ
  cuisine : Option String
  city : Option String
  locality : Option String
  type : Option String
  maxPrice : Option Nat
  minRating : Option ℚ
  limit : Option Nat
  useSemanticSearch : Bool
deriving DecidableEq, Repr

/-- `const maxResults = limit ? parseInt(limit) : 15`. -/
def maxResultsOf (args : ToolArgs) : Nat := args.limit.getD 15

/-- The vector-search options the tool builds; the retry call site is
identical except that the `cuisine` key is omitted. -/
def toolVectorOptions (args : ToolArgs) (withCuisine : Bool) :
    RestaurantRepository.VectorOptions :=
  { latitude := args.latitude, longitude := args.longitude,
    radius := some (args.radius.getD 15),
    cuisine := if withCuisine then args.cuisine else none,
    city := args.city, locality := args.locality, type := args.type,
    maxPrice := args.maxPrice, minRating := args.minRating,
    limit := some (maxResultsOf args * 2) }

/-- The nearby-search options the tool builds; the retry call site is
identical except that the `cuisine` key is omitted. -/
def toolNearbyOptions (args : ToolArgs) (withCuisine : Bool) : NearbyOptions :=
  { latitude := some (args.latitude.getD 0),
    longitude := some (args.longitude.getD 0),
    radius := some (args.radius.getD 15),
    cuisine := if withCuisine then args.cuisine else none,
    city := args.city, maxPrice := args.maxPrice, minRating := args.minRating,
    limit := some (maxResultsOf args) }

/-- The structured content of the JSON the tool returns. -/
structure SearchToolOutput where
  success : Bool
  searchStrategy : String
  totalFound : Nat
  restaurants : List Restaurant
  error : Option String
deriving DecidableEq, Repr

/-- `semanticSearchRestaurantsTool`: primary step (semantic when a truthy
query and `useSemanticSearch`, else location when both coordinate strings
are present, else popular), the cuisine-removing retry, the popular final
fallback, then the returned JSON.  The source binds
`const finalRestaurants = result.restaurants` under a "Limit final results"
comment but performs no truncation to `maxResults`. -/
def semanticSearchRestaurants (ft : FtOracle) (embed : String → List ℚ)
    (args : ToolArgs) : SearchToolOutput :=
  let maxResults := maxResultsOf args
  let primary : Except AppError ServiceResult :=
    if strTruthy args.query && args.useSemanticSearch then
      RestaurantService.vectorSearchRestaurants ft (embed (args.query.getD ""))
        (toolVectorOptions args true)
    else if args.latitude.isSome && args.longitude.isSome then
      RestaurantService.findNearbyRestaurants ft (toolNearbyOptions args true)
    else
      Except.ok (RestaurantService.getPopularRestaurants ft
        ⟨args.city, some maxResults, args.cuisine⟩)
  let afterRetry : Except AppError ServiceResult :=
    match primary with
    | Except.error e => Except.error e
    | Except.ok result =>
        if result.restaurants.isEmpty && strTruthy args.cuisine then
          if strTruthy args.query && args.useSemanticSearch then
            RestaurantService.vectorSearchRestaurants ft
              (embed (args.query.getD "")) (toolVectorOptions args false)
          else if args.latitude.isSome && args.longitude.isSome then
            RestaurantService.findNearbyRestaurants ft (toolNearbyOptions args false)
          else
            Except.ok result
        else
          Except.ok result
  match afterRetry with
  | Except.error _ =>
      { success := false, searchStrategy := "", totalFound := 0,
        restaurants := [], error := some "search failed" }
  | Except.ok result =>
      let result2 :=
        if result.restaurants.isEmpty then
          RestaurantService.getPopularRestaurants ft ⟨args.city, some maxResults, none⟩
        else result
      let finalRestaurants := result2.restaurants
      { success := !finalRestaurants.isEmpty,
        searchStrategy :=
          if strTruthy args.query && args.useSemanticSearch then "semantic"
          else if args.latitude.isSome && args.longitude.isSome then "location"
          else "popular",
        totalFound := finalRestaurants.length,
        restaurants := finalRestaurants,
        error := none }

/-! ## Reservation domain — reservation service and repository -/

/-- A persisted reservation record. -/
structure ReservationRecord where
  id : String
  sessionId : String
  restaurantId : String
  date : String
  time : String
  guests : Nat
  customerName : String
  customerPhone : String
  customerEmail : Option String
  specialRequests : Option String
  status : String
  createdAt : String
  updatedAt : String
  cancelledAt : Option String
deriving DecidableEq, Repr

/-- The contact slice of a stored user profile. -/
structure UserProfile where
  name : Option String
  email : Option String
  phone : Option String
deriving DecidableEq, Repr

/-- The Redis keyspace slice these operations touch: reservation hashes,
the per-session reservation-id sets, restaurant documents, and user
profiles, each as an association list keyed by identifier. -/
structure Db where
  reservations : List (String × ReservationRecord)
  sessionReservations : List (String × List String)
  restaurants : List (String × Restaurant)
  profiles : List (String × UserProfile)
deriving DecidableEq, Repr

/-- Association-list lookup. -/
def lookupKey {α : Type} (k : String) (l : List (String × α)) : Option α :=
  (l.find? (fun p => p.1 == k)).map (fun p => p.2)

/-- Association-list upsert. -/
def setKey {α : Type} (k : String) (v : α) : List (String × α) → List (String × α)
  | [] => [(k, v)]
  | (k2, v2) :: rest =>
      if k2 == k then (k, v) :: rest else (k2, v2) :: setKey k v rest

/-- Redis `SADD` on the modelled set-of-strings keys. -/
def sAddKey (k : String) (x : String) (l : List (String × List String)) :
    List (String × List String) :=
  let cur := (lookupKey k l).getD []
  setKey k (if x ∈ cur then cur else cur ++ [x]) l

/-- Result of `UserService.getUserContactDetails` (all fields defaulted to
strings; `name` falls back to "Guest"). -/
structure ContactDetails where
  name : String
  email : String
  phone : String
deriving DecidableEq, Repr

namespace UserService

/-- `UserService.getUserContactDetails`: `none` when no profile exists for
the session (`getUserProfile` returned null). -/
def getUserContactDetails (db : Db) (sessionId : String) : Option ContactDetails :=
  match lookupKey sessionId db.profiles with
  | none => none
  | some profile =>
      some { name := (optStr profile.name).getD "Guest",
             email := (optStr profile.email).getD "",
             phone := (optStr profile.phone).getD "" }

end UserService

namespace RestaurantService

/-- `RestaurantService.getRestaurantById`: rejects a falsy id, throws
`RESTAURANT_NOT_FOUND` when the repository finds no document. -/
def getRestaurantById (db : Db) (restaurantId : String) : Except AppError Restaurant :=
  if restaurantId = "" then
    Except.error ⟨"INVALID_RESTAURANT_ID"⟩
  else
    match lookupKey restaurantId db.restaurants with
    | none => Except.error ⟨"RESTAURANT_NOT_FOUND"⟩
    | some restaurant => Except.ok restaurant

end RestaurantService

/-- Data handed to `ReservationRepository.createReservation`. -/
structure NewReservationData where
  sessionId : String
  restaurantId : String
  date : String
  time : String
  guests : Nat
  customerName : String
  customerPhone : String
  customerEmail : Option String
  specialRequests : Option String
deriving DecidableEq, Repr

namespace ReservationRepository

/-- `ReservationRepository.createReservation`: builds the record with status
"confirmed" and fresh timestamps, stores the hash, and adds the id to the
session's reservation set.  `freshId` models `_generateReservationId()` and
`nowIso` the `new Date().toISOString()` calls. -/
def createReservation (db : Db) (data : NewReservationData)
    (freshId nowIso : String) : ReservationRecord × Db :=
  let reservation : ReservationRecord :=
    { id := freshId, sessionId := data.sessionId,
      restaurantId := data.restaurantId, date := data.date, time := data.time,
      guests := data.guests, customerName := data.customerName,
      customerPhone := data.customerPhone, customerEmail := data.customerEmail,
      specialRequests := data.specialRequests, status := "confirmed",
      createdAt := nowIso, updatedAt := nowIso, cancelledAt := none }
  (reservation,
   { db with
       reservations := setKey freshId reservation db.reservations,
       sessionReservations := sAddKey data.sessionId freshId db.sessionReservations })

/-- `ReservationRepository.getReservationById` (`none` for an empty hash). -/
def getReservationById (db : Db) (reservationId : String) : Option ReservationRecord :=
  lookupKey reservationId db.reservations

/-- `ReservationRepository.updateReservation`: overwrites the hash with the
supplied record, refreshing `updatedAt`. -/
def updateReservation (db : Db) (reservationId : String)
    (record : ReservationRecord) (nowIso : String) : ReservationRecord × Db :=
  let updated := { record with updatedAt := nowIso }
  (updated, { db with reservations := setKey reservationId updated db.reservations })

/-- `ReservationRepository.updateReservationStatus`.  Note the source wraps
the body in a catch that rethrows every error — including its own
`RESERVATION_NOT_FOUND` — as `RESERVATION_UPDATE_ERROR`. -/
def updateReservationStatus (db : Db) (reservationId status nowIso : String) :
    Except AppError (ReservationRecord × Db) :=
  match getReservationById db reservationId with
  | none => Except.error ⟨"RESERVATION_UPDATE_ERROR"⟩
  | some reservation =>
      let updated := { reservation with status := status, updatedAt := nowIso }
      Except.ok (updated,
        { db with reservations := setKey reservationId updated db.reservations })

end ReservationRepository

/-- A JS exception escaping the reservation service: either a thrown
`AppError` or the `TypeError` raised by reading `.name` on a null contact
object. -/
inductive JsError where
  | app (e : AppError)
  | typeError
deriving DecidableEq, Repr

/-- The restaurant summary embedded in reservation-service responses. -/
structure RestaurantSummary where
  id : String
  name : String
  cuisine : String
  address : String
  city : String
  locality : String
deriving DecidableEq, Repr

/-- Projection used by every reservation-service response. -/
def summarize (r : Restaurant) : RestaurantSummary :=
  ⟨r.id, r.name, r.cuisine, r.address, r.city, r.locality⟩

/-- Arguments of `ReservationService.createReservation` (the tool injects
`sessionId`; `guests` arrives through `parseInt`). -/
structure CreateReservationArgs where
  sessionId : String
  restaurantId : String
  date : String
  time : String
  guests : Nat
  specialRequests : Option String
deriving DecidableEq, Repr

/-- A created reservation with its restaurant summary. -/
structure CreateReservationResult where
  reservation : ReservationRecord
  restaurant : RestaurantSummary
deriving DecidableEq, Repr

namespace ReservationService

/-- `ReservationService.createReservation`.  Order is exactly the source's:
contact details are resolved from the profile (a missing profile makes
`customerDetails.name` throw a TypeError), the reservation is persisted and
indexed, and only then is the restaurant looked up — a failing lookup
propagates `RESTAURANT_NOT_FOUND` *after* the record was stored. -/
def createReservation (db : Db) (args : CreateReservationArgs)
    (freshId nowIso : String) : Except JsError CreateReservationResult × Db :=
  match UserService.getUserContactDetails db args.sessionId with
  | none => (Except.error JsError.typeError, db)
  | some customerDetails =>
      let created := ReservationRepository.createReservation db
        { sessionId := args.sessionId, restaurantId := args.restaurantId,
          date := args.date, time := args.time, guests := args.guests,
          customerName := customerDetails.name.trim,
          customerPhone := customerDetails.phone.trim,
          customerEmail :=
            if customerDetails.email ≠ "" then some customerDetails.email.trim
            else none,
          specialRequests := (optStr args.specialRequests).map String.trim }
        freshId nowIso
      match RestaurantService.getRestaurantById created.2 args.restaurantId with
      | Except.error e => (Except.error (JsError.app e), created.2)
      | Except.ok restaurant =>
          (Except.ok { reservation := created.1, restaurant := summarize restaurant },
           created.2)

/-- `ReservationService.getReservationById`: validates the id, loads the
reservation, then loads the restaurant for the response. -/
def getReservationById (db : Db) (reservationId : String) :
    Except AppError (ReservationRecord × RestaurantSummary) :=
  if reservationId = "" then
    Except.error ⟨"INVALID_RESERVATION_ID"⟩
  else
    match ReservationRepository.getReservationById db reservationId with
    | none => Except.error ⟨"RESERVATION_NOT_FOUND"⟩
    | some reservation =>
        match RestaurantService.getRestaurantById db reservation.restaurantId with
        | Except.error e => Except.error e
        | Except.ok restaurant => Except.ok (reservation, summarize restaurant)

/-- The `cancelReservation` that is actually in effect.  The class body of
`ReservationService` defines `cancelReservation` twice; under JS semantics
the second definition shadows the first, so the effective method checks only
existence and the already-cancelled status — it has no ownership check and
no 2-hour lead-time check. -/
def cancelReservation (db : Db) (reservationId nowIso : String) :
    Except AppError (ReservationRecord × RestaurantSummary) × Db :=
  match getReservationById db reservationId with
  | Except.error e => (Except.error e, db)
  | Except.ok (reservation, restaurantSummary) =>
      if reservation.status = "cancelled" then
        (Except.error ⟨"ALREADY_CANCELLED"⟩, db)
      else
        match ReservationRepository.updateReservationStatus db reservationId
            "cancelled" nowIso with
        | Except.error e => (Except.error e, db)
        | Except.ok (cancelled, db1) =>
            (Except.ok (cancelled, restaurantSummary), db1)

/-- The first — shadowed, therefore dead — `cancelReservation` definition,
which implements the ownership and 2-hour lead-time policy.
`dateTimeMillis` models `new Date(date + " " + time).getTime()`;
`hoursUntilReservation < 2` under exact arithmetic is
`start − now < 7 200 000 ms`. -/
def cancelReservationShadowed (db : Db) (reservationId sessionId : String)
    (dateTimeMillis : String → String → Int) (nowMillis : Int) (nowIso : String) :
    Except AppError ReservationRecord × Db :=
  if reservationId = "" ∨ sessionId = "" then
    (Except.error ⟨"INVALID_PARAMETERS"⟩, db)
  else
    match ReservationRepository.getReservationById db reservationId with
    | none => (Except.error ⟨"RESERVATION_NOT_FOUND"⟩, db)
    | some reservation =>
        if reservation.sessionId ≠ sessionId then
          (Except.error ⟨"UNAUTHORIZED_CANCELLATION"⟩, db)
        else if reservation.status = "cancelled" then
          (Except.error ⟨"ALREADY_CANCELLED"⟩, db)
        else if reservation.status = "completed" then
          (Except.error ⟨"CANNOT_CANCEL_COMPLETED"⟩, db)
        else if dateTimeMillis reservation.date reservation.time - nowMillis <
            2 * 60 * 60 * 1000 then
          (Except.error ⟨"CANCELLATION_TOO_LATE"⟩, db)
        else
          let cancelledReservation :=
            { reservation with
                status := "cancelled",
                cancelledAt := some nowIso, updatedAt := nowIso }
          let upd := ReservationRepository.updateReservation db reservationId
            cancelledReservation nowIso
          (Except.ok cancelledReservation, upd.2)

end ReservationService

/-! ## Claims -/

/-- C1: the TTL policy is a total function on lists of tool names evaluated
as a first-match-wins ladder — 0 for any reservation tool, else 7 days for
`get_popular_restaurants`/`direct_answer`, else 24 hours for
`semantic_search_restaurants`, else 6 hours for `get_restaurant_details`,
else the 12-hour default; in particular
`[semantic_search_restaurants]` yields 24 hours. -/
theorem claim_C1_ttl_policy_ladder :
    (∀ toolsUsed : List String,
      determineToolBasedCacheTTL toolsUsed =
        if "make_reservation" ∈ toolsUsed ∨ "get_user_reservations" ∈ toolsUsed ∨
            "cancel_reservation" ∈ toolsUsed then 0
        else if "get_popular_restaurants" ∈ toolsUsed ∨
            "direct_answer" ∈ toolsUsed then 604800000
        else if "semantic_search_restaurants" ∈ toolsUsed then 86400000
        else if "get_restaurant_details" ∈ toolsUsed then 21600000
        else 43200000) ∧
    determineToolBasedCacheTTL ["semantic_search_restaurants"] = 86400000 := by
  refine ⟨fun toolsUsed => ?_, by decide⟩
  by_cases h1 : "make_reservation" ∈ toolsUsed <;>
    by_cases h2 : "get_user_reservations" ∈ toolsUsed <;>
    by_cases h3 : "cancel_reservation" ∈ toolsUsed <;>
    by_cases h4 : "get_popular_restaurants" ∈ toolsUsed <;>
    by_cases h5 : "direct_answer" ∈ toolsUsed <;>
    by_cases h6 : "semantic_search_restaurants" ∈ toolsUsed <;>
    by_cases h7 : "get_restaurant_details" ∈ toolsUsed <;>
    simp [determineToolBasedCacheTTL, personalTools, staticTools, searchTools,
      detailTools, h1, h2, h3, h4, h5, h6, h7]

/-- C3: a turn whose `toolsUsed` list contains a reservation tool gets TTL 0,
issues no cache-store request in the cache-write node, and ends with
`cacheStatus = "skip"`. -/
theorem claim_C3_reservation_turns_skip_cache
    (state : AgentState) (saveFails : Bool) (ts : List String)
    (hts : state.toolsUsed = some ts)
    (hmem : "make_reservation" ∈ ts ∨ "get_user_reservations" ∈ ts ∨
      "cancel_reservation" ∈ ts) :
    determineToolBasedCacheTTL ts = 0 ∧
    (processWorkOutputWithCaching state saveFails).2 = [] ∧
    (processWorkOutputWithCaching state saveFails).1.cacheStatus = some "skip" := by
  have hany : personalTools.any (fun tool => ts.contains tool) = true := by
    simpa [personalTools] using hmem
  have httl : determineToolBasedCacheTTL ts = 0 := by
    unfold determineToolBasedCacheTTL
    rw [if_pos hany]
  refine ⟨httl, ?_⟩
  by_cases herr : "error" ∈ ts
  · constructor <;> simp [processWorkOutputWithCaching, hts, herr]
  · constructor <;> simp [processWorkOutputWithCaching, hts, herr, httl]

/-- C3 witness: a concrete turn that used `make_reservation`. -/
theorem claim_C3_reservation_turns_skip_cache_witness :
    determineToolBasedCacheTTL ["make_reservation"] = 0 ∧
    (processWorkOutputWithCaching
      ⟨"alice", [⟨"human", "book a table"⟩], some "done", none,
        some ["make_reservation"]⟩ false).2 = [] ∧
    (processWorkOutputWithCaching
      ⟨"alice", [⟨"human", "book a table"⟩], some "done", none,
        some ["make_reservation"]⟩ false).1.cacheStatus = some "skip" :=
  claim_C3_reservation_turns_skip_cache
    ⟨"alice", [⟨"human", "book a table"⟩], some "done", none,
      some ["make_reservation"]⟩
    false ["make_reservation"] rfl (Or.inl (by simp))

/-- C4: on a cache hit the workflow ends immediately after the cache-check
node — zero model calls, no tool invocation (`toolsUsed` stays unset), no
store request, `cacheStatus = "hit"`, and the cached response as result. -/
theorem claim_C4_cache_hit_short_circuit
    (sessionId : String) (messages : List Message)
    (script : List (Except Unit ModelResponse)) (saveFails : Bool)
    (cached : String) (hc : cached ≠ "") :
    runWorkflow sessionId messages (Except.ok (some cached)) script saveFails =
      some { finalState :=
               { sessionId := sessionId,
                 messages := messages ++ [⟨"ai", cached⟩],
                 result := some cached,
                 cacheStatus := some "hit",
                 toolsUsed := none },
             lookupRequest :=
               findFromSemanticCacheParams (lastHumanContent messages) none,
             modelCalls := 0,
             toolInvocations := [],
             storeRequests := [] } := by
  simp [runWorkflow, queryCacheCheck, hc]

/-- C4 witness: a concrete hit turn. -/
theorem claim_C4_cache_hit_short_circuit_witness :
    "cached answer" ≠ "" ∧
    runWorkflow "alice" [⟨"human", "find pizza"⟩]
        (Except.ok (some "cached answer")) [] false =
      some { finalState :=
               { sessionId := "alice",
                 messages := [⟨"human", "find pizza"⟩, ⟨"ai", "cached answer"⟩],
                 result := some "cached answer",
                 cacheStatus := some "hit",
                 toolsUsed := none },
             lookupRequest :=
               findFromSemanticCacheParams
                 (lastHumanContent [⟨"human", "find pizza"⟩]) none,
             modelCalls := 0,
             toolInvocations := [],
             storeRequests := [] } :=
  ⟨by decide,
   claim_C4_cache_hit_short_circuit "alice" [⟨"human", "find pizza"⟩] [] false
     "cached answer" (by decide)⟩

/-- C7: a cache-lookup failure is caught by the cache-check node, which
returns `cacheStatus = "miss"`, and the whole turn proceeds exactly as a
miss would — the error never escapes the orchestrator boundary. -/
theorem claim_C7_cache_error_treated_as_miss
    (sessionId : String) (messages : List Message)
    (script : List (Except Unit ModelResponse)) (saveFails : Bool)
    (state : AgentState) :
    (queryCacheCheck state (Except.error ())).1.cacheStatus = some "miss" ∧
    queryCacheCheck state (Except.error ()) = queryCacheCheck state (Except.ok none) ∧
    runWorkflow sessionId messages (Except.error ()) script saveFails =
      runWorkflow sessionId messages (Except.ok none) script saveFails :=
  ⟨rfl, rfl, rfl⟩

/-- A model behavior with `n` consecutive tool-call responses followed by a
final text — the witness family showing the loop has no iteration cap. -/
def loopScript (n : Nat) : List (Except Unit ModelResponse) :=
  List.replicate n (Except.ok ⟨"", ["semantic_search_restaurants"]⟩) ++
    [Except.ok ⟨"Here are some options", []⟩]

/-- The loop runs all `n` tool-call rounds of `loopScript n` and finishes on
the `(n+1)`-st model response. -/
theorem agentLoop_loopScript (n : Nat) (acc : List String) :
    agentLoop (loopScript n) acc =
      AgentOutcome.finished "Here are some options"
        (acc ++ List.replicate n "semantic_search_restaurants") (n + 1) := by
  induction n generalizing acc with
  | zero => simp [loopScript, agentLoop]
  | succ k ih =>
      simp [loopScript, List.replicate_succ, agentLoop] at ih ⊢
      rw [ih]
      simp [List.replicate_succ]

/-- Unfolding of one loop iteration on a tool-calling response: the loop
does not exit but recurses with the extended tool accumulator. -/
theorem agentLoop_cons_toolCalls (r : ModelResponse)
    (rest : List (Except Unit ModelResponse)) (acc : List String)
    (hr : r.toolCalls ≠ []) :
    agentLoop (Except.ok r :: rest) acc =
      match agentLoop rest (acc ++ r.toolCalls) with
      | AgentOutcome.finished c ts n => AgentOutcome.finished c ts (n + 1)
      | AgentOutcome.errored ts n => AgentOutcome.errored ts (n + 1)
      | AgentOutcome.diverged => AgentOutcome.diverged := by
  have hr' : r.toolCalls.isEmpty = false := by simpa using hr
  simp [agentLoop, hr']

/-- C9: the agent loop exits exactly on a model response without tool calls,
returning that response's text; there is no iteration cap (for every `n` the
script `loopScript n` drives more than `n` model invocations); and for
non-throwing model behaviors the loop reaches a final answer iff the model
eventually returns a response with no tool calls. -/
theorem claim_C9_agent_loop_no_iteration_cap :
    (∀ (r : ModelResponse) (rest : List (Except Unit ModelResponse))
        (acc : List String), r.toolCalls = [] →
        agentLoop (Except.ok r :: rest) acc =
          AgentOutcome.finished r.content acc 1) ∧
    (∀ n : Nat, ∃ content tools,
        agentLoop (loopScript n) [] =
          AgentOutcome.finished content tools (n + 1) ∧ n < n + 1) ∧
    (∀ (script : List (Except Unit ModelResponse)) (acc : List String),
        (∀ x ∈ script, ∃ r, x = Except.ok r) →
        ((∃ c ts n, agentLoop script acc = AgentOutcome.finished c ts n) ↔
          ∃ r : ModelResponse,
            (Except.ok r : Except Unit ModelResponse) ∈ script ∧
              r.toolCalls = [])) := by
  refine ⟨fun r rest acc hr => by simp [agentLoop, hr], ?_, ?_⟩
  · exact fun n =>
      ⟨"Here are some options", List.replicate n "semantic_search_restaurants",
        by simpa using agentLoop_loopScript n [], Nat.lt_succ_self n⟩
  · intro script
    induction script with
    | nil => intro acc _; simp [agentLoop]
    | cons x rest ih =>
        intro acc hok
        obtain ⟨r, rfl⟩ := hok x (by simp)
        by_cases hr : r.toolCalls = []
        · have hr' : r.toolCalls.isEmpty = true := by simpa using hr
          simp only [agentLoop, hr', if_true]
          constructor
          · intro _
            exact ⟨r, by simp, hr⟩
          · intro _
            exact ⟨r.content, acc, 1, rfl⟩
        · have ihr := ih (acc ++ r.toolCalls) (fun y hy => hok y (by simp [hy]))
          rw [agentLoop_cons_toolCalls r rest acc hr]
          rcases hrec : agentLoop rest (acc ++ r.toolCalls) with
            ⟨c, ts, n⟩ | ⟨ts, n⟩ | _
          · simp only [hrec] at ihr
            constructor
            · intro _
              obtain ⟨r2, hr2, hr2t⟩ := ihr.mp ⟨c, ts, n, rfl⟩
              exact ⟨r2, by simp [hr2], hr2t⟩
            · intro _
              exact ⟨c, ts, n + 1, rfl⟩
          · simp only [hrec] at ihr
            constructor
            · intro ⟨c2, ts2, n2, h2⟩
              exact absurd h2 (by simp)
            · intro ⟨r2, hr2, hr2t⟩
              rcases (by simpa using hr2 :
                  r2 = r ∨ (Except.ok r2 : Except Unit ModelResponse) ∈ rest) with
                h | h
              · exact absurd (h ▸ hr2t) hr
              · obtain ⟨c2, ts2, n2, h2⟩ := ihr.mpr ⟨r2, h, hr2t⟩
                exact absurd h2 (by simp)
          · simp only [hrec] at ihr
            constructor
            · intro ⟨c2, ts2, n2, h2⟩
              exact absurd h2 (by simp)
            · intro ⟨r2, hr2, hr2t⟩
              rcases (by simpa using hr2 :
                  r2 = r ∨ (Except.ok r2 : Except Unit ModelResponse) ∈ rest) with
                h | h
              · exact absurd (h ▸ hr2t) hr
              · obtain ⟨c2, ts2, n2, h2⟩ := ihr.mpr ⟨r2, h, hr2t⟩
                exact absurd h2 (by simp)

/-- C9 witness: a concrete all-ok script whose loop finishes, instantiating
the termination characterisation. -/
theorem claim_C9_agent_loop_no_iteration_cap_witness :
    ∃ r : ModelResponse,
      (Except.ok r : Except Unit ModelResponse) ∈
          [Except.ok (⟨"done", []⟩ : ModelResponse)] ∧
        r.toolCalls = [] :=
  (claim_C9_agent_loop_no_iteration_cap.2.2
      [Except.ok (⟨"done", []⟩ : ModelResponse)] []
      (fun x hx => ⟨⟨"done", []⟩, by simpa using hx⟩)).mp
    ⟨"done", [], 1, rfl⟩

/-- C10: the cache-check lookup is always unscoped (no sessionId attribute;
it depends only on the query text, so two turns from different sessions with
the same query issue identical lookup requests), while every cache store
issued by the cache-write node carries the turn's sessionId as a scoping
attribute (sessions are non-empty strings — the chat route rejects empty
session ids). -/
theorem claim_C10_lookup_unscoped_store_scoped :
    (∀ (state : AgentState) (lookup : Except Unit (Option String)),
        ((queryCacheCheck state lookup).2).attributes = none) ∧
    (∀ (s1 s2 : AgentState) (l1 l2 : Except Unit (Option String)),
        lastHumanContent s1.messages = lastHumanContent s2.messages →
        (queryCacheCheck s1 l1).2 = (queryCacheCheck s2 l2).2) ∧
    (∀ (state : AgentState) (saveFails : Bool),
        state.sessionId ≠ "" →
        ∀ request ∈ (processWorkOutputWithCaching state saveFails).2,
          request.attributes = some ⟨state.sessionId⟩) := by
  have hreq : ∀ (state : AgentState) (lookup : Except Unit (Option String)),
      (queryCacheCheck state lookup).2 =
        findFromSemanticCacheParams (lastHumanContent state.messages) none := by
    intro state lookup
    rcases lookup with _ | o
    · rfl
    · rcases o with _ | c
      · rfl
      · by_cases hc : c = "" <;> simp [queryCacheCheck, hc]
  refine ⟨?_, ?_, ?_⟩
  · intro state lookup
    rw [hreq]
    simp [findFromSemanticCacheParams, strTruthy]
  · intro s1 s2 l1 l2 hq
    rw [hreq, hreq, hq]
  · intro state saveFails hsid request hreqmem
    have hstr : strTruthy (some state.sessionId) = true := by
      simpa [strTruthy] using hsid
    by_cases herr : "error" ∈ (state.toolsUsed.getD [])
    · simp [processWorkOutputWithCaching, herr] at hreqmem
    · by_cases httl : determineToolBasedCacheTTL (state.toolsUsed.getD []) = 0
      · simp [processWorkOutputWithCaching, herr, httl] at hreqmem
      · rcases hsave : saveFails with _ | _ <;>
        · simp [processWorkOutputWithCaching, herr, httl, hsave] at hreqmem
          simp [hreqmem, saveResponseInSemanticCacheParams, hstr,
            Option.getD_some]

/-- C10 witness: a concrete stored turn carries the session attribute and a
concrete lookup is unscoped. -/
theorem claim_C10_lookup_unscoped_store_scoped_witness :
    ((queryCacheCheck
        ⟨"alice", [⟨"human", "find pizza"⟩], none, none, none⟩
        (Except.ok none)).2).attributes = none ∧
    ∀ request ∈ (processWorkOutputWithCaching
        ⟨"alice", [⟨"human", "find pizza"⟩], some "resp", none,
          some ["semantic_search_restaurants"]⟩ false).2,
      request.attributes = some ⟨"alice"⟩ :=
  ⟨claim_C10_lookup_unscoped_store_scoped.1
      ⟨"alice", [⟨"human", "find pizza"⟩], none, none, none⟩ (Except.ok none),
   claim_C10_lookup_unscoped_store_scoped.2.2
      ⟨"alice", [⟨"human", "find pizza"⟩], some "resp", none,
        some ["semantic_search_restaurants"]⟩ false (by decide)⟩

/-- A demo restaurant document keyed by index. -/
def demoRestaurant (i : Nat) : Restaurant :=
  { id := "r" ++ toString i, name := "Restaurant " ++ toString i,
    cuisine := "Italian", city := "Delhi", locality := "Khan Market",
    address := "Street " ++ toString i, type := "Casual Dining",
    priceFor2 := 1000, rating := 4, reviewCount := 0 }

/-- Ten demo documents for the overflow scenario. -/
def demoRestaurants : List Restaurant := (List.range 10).map demoRestaurant

/-- A demo index honouring the capability contract: it never returns more
documents than the request's LIMIT size. -/
def demoFt : FtOracle := fun request => demoRestaurants.take request.limit

/-- A demo embedding function. -/
def demoEmbed : String → List ℚ := fun _ => [1]

/-- A semantic search with `limit = "5"`. -/
def c2Args : ToolArgs :=
  { query := some "pizza", latitude := none, longitude := none, radius := none,
    cuisine := none, city := none, locality := none, type := none,
    maxPrice := none, minRating := none, limit := some 5,
    useSemanticSearch := true }

/-- C2 (failing input): with `limit = 5` and an index holding 10 matching
documents, the semantic path requests `2 × limit = 10` KNN candidates and the
tool returns all 10 of them — the final list is never truncated to `limit`
(the source comment "Limit final results" notwithstanding), even though the
index itself honours every request's LIMIT. -/
theorem claim_C2_no_final_truncation :
    maxResultsOf c2Args = 5 ∧
    (semanticSearchRestaurants demoFt demoEmbed c2Args).restaurants.length = 10 ∧
    (∀ request : FtRequest, (demoFt request).length ≤ request.limit) := by
  refine ⟨rfl, rfl, fun request => ?_⟩
  simp [demoFt, List.length_take]

/-- A confirmed reservation starting at 13:00 on 2026-10-12. -/
def c5Reservation : ReservationRecord :=
  { id := "res1", sessionId := "alice", restaurantId := "r1",
    date := "2026-10-12", time := "13:00", guests := 2,
    customerName := "Alice", customerPhone := "123", customerEmail := none,
    specialRequests := none, status := "confirmed",
    createdAt := "2026-10-10T12:00:00Z", updatedAt := "2026-10-10T12:00:00Z",
    cancelledAt := none }

/-- Store holding that reservation and its restaurant. -/
def c5Db : Db :=
  { reservations := [("res1", c5Reservation)],
    sessionReservations := [("alice", ["res1"])],
    restaurants := [("r1", demoRestaurant 1)],
    profiles := [] }

/-- The `new Date(date + " " + time).getTime()` capability in the scenario:
the reservation starts at epoch-millisecond 3 600 000. -/
def c5DateTimeMillis : String → String → Int := fun _ _ => 3600000

/-- The current time in the scenario: epoch-millisecond 0, exactly one hour
before the reservation starts. -/
def c5Now : Int := 0

/-- C5 (failing input): the class body defines `cancelReservation` twice and
the second definition shadows the first, so the effective method enforces no
2-hour lead time: it cancels a confirmed reservation starting one hour from
now (where the claim demands `CancellationTooLate`).  The `NotFound` and
`AlreadyCancelled` rejections do hold, and the shadowed first definition
would have rejected the late cancellation. -/
theorem claim_C5_lead_time_check_shadowed :
    c5DateTimeMillis "2026-10-12" "13:00" - c5Now = 3600000 ∧
    (3600000 : Int) < 2 * 60 * 60 * 1000 ∧
    (ReservationService.cancelReservation c5Db "res1" "2026-10-12T12:00:00Z").1 =
      Except.ok
        ({ c5Reservation with
             status := "cancelled", updatedAt := "2026-10-12T12:00:00Z" },
         summarize (demoRestaurant 1)) ∧
    (ReservationService.cancelReservation
        (ReservationService.cancelReservation c5Db "res1" "2026-10-12T12:00:00Z").2
        "res1" "2026-10-12T12:05:00Z").1 =
      Except.error ⟨"ALREADY_CANCELLED"⟩ ∧
    (ReservationService.cancelReservation c5Db "nope" "2026-10-12T12:00:00Z").1 =
      Except.error ⟨"RESERVATION_NOT_FOUND"⟩ ∧
    (ReservationService.cancelReservationShadowed c5Db "res1" "alice"
        c5DateTimeMillis c5Now "2026-10-12T12:00:00Z").1 =
      Except.error ⟨"CANCELLATION_TOO_LATE"⟩ := by
  refine ⟨rfl, by decide, ?_, ?_, ?_, ?_⟩ <;> rfl

/-- Upserting a key makes it found with the new value. -/
theorem lookupKey_setKey_self {α : Type} (k : String) (v : α)
    (l : List (String × α)) : lookupKey k (setKey k v l) = some v := by
  induction l with
  | nil => simp [setKey, lookupKey]
  | cons p rest ih =>
      obtain ⟨k2, v2⟩ := p
      by_cases h : k2 = k
      · simp [setKey, lookupKey, h]
      · simp only [setKey, h, beq_iff_eq, if_false]
        simpa [lookupKey, h] using ih

/-- `SADD` leaves the added element in the set under its key. -/
theorem mem_sAddKey_self (k x : String) (l : List (String × List String)) :
    x ∈ (lookupKey k (sAddKey k x l)).getD [] := by
  unfold sAddKey
  rw [lookupKey_setKey_self]
  by_cases h : x ∈ (lookupKey k l).getD []
  · simp [h]
  · simp [h]

/-- Store with a profile for `alice` and no restaurant `ghost`. -/
def c8Db : Db :=
  { reservations := [], sessionReservations := [], restaurants := [],
    profiles := [("alice",
      { name := some "Alice", email := some "alice@example.com",
        phone := some "123" })] }

/-- A create request naming the nonexistent restaurant `ghost`. -/
def c8Args : CreateReservationArgs :=
  { sessionId := "alice", restaurantId := "ghost", date := "2026-11-01",
    time := "19:00", guests := 2, specialRequests := none }

/-- C8 counterexample: creating a reservation for a nonexistent restaurant
does fail with `RESTAURANT_NOT_FOUND`, but — contrary to the claim that state
is unchanged on error — the reservation record has been persisted and the
session→reservation index entry added before the restaurant lookup runs. -/
theorem claim_C8_counterexample :
    (ReservationService.createReservation c8Db c8Args "res_1" "2026-10-12T12:00:00Z").1 =
      Except.error (JsError.app ⟨"RESTAURANT_NOT_FOUND"⟩) ∧
    lookupKey "res_1"
        (ReservationService.createReservation c8Db c8Args "res_1"
          "2026-10-12T12:00:00Z").2.reservations ≠ none ∧
    "res_1" ∈ (lookupKey "alice"
        (ReservationService.createReservation c8Db c8Args "res_1"
          "2026-10-12T12:00:00Z").2.sessionReservations).getD [] := by
  refine ⟨rfl, by decide, by decide⟩

/-- C8 (amended): when the session has a profile and the (non-empty)
restaurant id is absent from the index, `createReservation` fails with
`RESTAURANT_NOT_FOUND` — but the reservation record is persisted and the
session→reservation index entry is added anyway, because the repository
write happens before the restaurant-existence lookup. -/
theorem claim_C8_create_validates_after_persisting
    (db : Db) (args : CreateReservationArgs) (freshId nowIso : String)
    (hprofile : UserService.getUserContactDetails db args.sessionId ≠ none)
    (hid : args.restaurantId ≠ "")
    (habsent : lookupKey args.restaurantId db.restaurants = none) :
    (ReservationService.createReservation db args freshId nowIso).1 =
      Except.error (JsError.app ⟨"RESTAURANT_NOT_FOUND"⟩) ∧
    lookupKey freshId
        (ReservationService.createReservation db args freshId nowIso).2.reservations ≠
      none ∧
    freshId ∈ (lookupKey args.sessionId
        (ReservationService.createReservation db args freshId
          nowIso).2.sessionReservations).getD [] := by
  obtain ⟨contact, hc⟩ := Option.ne_none_iff_exists'.mp hprofile
  refine ⟨?_, ?_, ?_⟩ <;>
    simp [ReservationService.createReservation, hc,
      RestaurantService.getRestaurantById, hid,
      ReservationRepository.createReservation, habsent,
      lookupKey_setKey_self, mem_sAddKey_self]

/-- C8 witness: the amended theorem instantiated at the concrete store. -/
theorem claim_C8_create_validates_after_persisting_witness :
    (ReservationService.createReservation c8Db c8Args "res_9" "2026-10-12T12:00:00Z").1 =
      Except.error (JsError.app ⟨"RESTAURANT_NOT_FOUND"⟩) ∧
    lookupKey "res_9"
        (ReservationService.createReservation c8Db c8Args "res_9"
          "2026-10-12T12:00:00Z").2.reservations ≠ none ∧
    "res_9" ∈ (lookupKey "alice"
        (ReservationService.createReservation c8Db c8Args "res_9"
          "2026-10-12T12:00:00Z").2.sessionReservations).getD [] :=
  claim_C8_create_validates_after_persisting c8Db c8Args "res_9"
    "2026-10-12T12:00:00Z" (by decide) (by decide) (by decide)

/-- All ladder steps before the popular final fallback return zero results:
on the semantic path (resp. location path) the first attempt is empty and,
when a cuisine filter was supplied, so is the cuisine-less retry of the same
step; on the popular-primary path the cuisine-filtered popular query is
empty.  The three cases follow the tool's own branch conditions. -/
def earlierLadderStepsEmpty (ft : FtOracle) (embed : String → List ℚ)
    (args : ToolArgs) : Prop :=
  ((strTruthy args.query && args.useSemanticSearch) = true ∧
    RestaurantService.vectorSearchRestaurants ft (embed (args.query.getD ""))
        (toolVectorOptions args true) = Except.ok ⟨[]⟩ ∧
    (strTruthy args.cuisine = true →
      RestaurantService.vectorSearchRestaurants ft (embed (args.query.getD ""))
          (toolVectorOptions args false) = Except.ok ⟨[]⟩)) ∨
  ((strTruthy args.query && args.useSemanticSearch) = false ∧
    (args.latitude.isSome && args.longitude.isSome) = true ∧
    RestaurantService.findNearbyRestaurants ft (toolNearbyOptions args true) =
      Except.ok ⟨[]⟩ ∧
    (strTruthy args.cuisine = true →
      RestaurantService.findNearbyRestaurants ft (toolNearbyOptions args false) =
        Except.ok ⟨[]⟩)) ∨
  ((strTruthy args.query && args.useSemanticSearch) = false ∧
    (args.latitude.isSome && args.longitude.isSome) = false ∧
    (RestaurantService.getPopularRestaurants ft
        ⟨args.city, some (maxResultsOf args), args.cuisine⟩).restaurants = [])

/-- C6: when every ladder step before the final fallback matches zero
documents, the tool's final result equals the popular-fallback result —
the popular query with `minRating = 4`, restricted only by city (cuisine
dropped) — so the caller receives an empty list iff that popular query
itself has no qualifying documents. -/
theorem claim_C6_fallback_ladder (ft : FtOracle) (embed : String → List ℚ)
    (args : ToolArgs) (h : earlierLadderStepsEmpty ft embed args) :
    (semanticSearchRestaurants ft embed args).restaurants =
      (RestaurantService.getPopularRestaurants ft
        ⟨args.city, some (maxResultsOf args), none⟩).restaurants ∧
    (RestaurantService.getPopularRestaurants ft
        ⟨args.city, some (maxResultsOf args), none⟩).restaurants =
      RestaurantService.sortPopular (ft (RestaurantRepository.searchRequest
        { query := "*", cuisine := none, city := args.city, locality := none,
          type := none, maxPrice := none, minRating := some 4,
          limit := min (max (maxResultsOf args) 1) 50 })) ∧
    ((semanticSearchRestaurants ft embed args).restaurants = [] ↔
      (RestaurantService.getPopularRestaurants ft
        ⟨args.city, some (maxResultsOf args), none⟩).restaurants = []) := by
  have hmain : (semanticSearchRestaurants ft embed args).restaurants =
      (RestaurantService.getPopularRestaurants ft
        ⟨args.city, some (maxResultsOf args), none⟩).restaurants := by
    rcases h with ⟨hsem, hfirst, hretry⟩ | ⟨hsem, hloc, hfirst, hretry⟩ |
      ⟨hsem, hloc, hfirst⟩
    · by_cases hcu : strTruthy args.cuisine = true
      · simp [semanticSearchRestaurants, hsem, hfirst, hretry hcu, hcu]
      · simp [semanticSearchRestaurants, hsem, hfirst, hcu]
    · by_cases hcu : strTruthy args.cuisine = true
      · simp [semanticSearchRestaurants, hsem, hloc, hfirst, hretry hcu, hcu]
      · simp [semanticSearchRestaurants, hsem, hloc, hfirst, hcu]
    · simp [semanticSearchRestaurants, hsem, hloc, hfirst]
  exact ⟨hmain, rfl, by rw [hmain]⟩

/-- An index with no vector matches but two documents answering the popular
text query. -/
def c6Ft : FtOracle := fun request =>
  if request.knn.isSome then [] else [demoRestaurant 3, demoRestaurant 4]

/-- A semantic search whose cuisine filter matches nothing. -/
def c6Args : ToolArgs :=
  { query := some "sushi", latitude := none, longitude := none, radius := none,
    cuisine := some "Mexican", city := some "Delhi", locality := none,
    type := none, maxPrice := none, minRating := none, limit := some 3,
    useSemanticSearch := true }

/-- C6 witness: with both the cuisine-filtered semantic search and its
cuisine-less retry empty, the tool's result is exactly the popular-fallback
result. -/
theorem claim_C6_fallback_ladder_witness :
    (semanticSearchRestaurants c6Ft demoEmbed c6Args).restaurants =
      (RestaurantService.getPopularRestaurants c6Ft
        ⟨some "Delhi", some 3, none⟩).restaurants :=
  (claim_C6_fallback_ladder c6Ft demoEmbed c6Args
    (Or.inl ⟨by decide, rfl, fun _ => rfl⟩)).1

end RestaurantAgent
